import Mathlib

/-!
# Verification of the piper-speechd speech-output module

Shallow embedding of `src/main.rs` and `src/io.rs` of the piper-speechd
repository, together with proofs about the properties stated in its
specification.

Modelling conventions:
* Bytes are `Nat` (the byte transforms never depend on an upper bound).
* Rust `f32` prosody arithmetic is modelled over `Rat` (exact piecewise
  linear arithmetic; all constants involved are exactly representable).
* The stdin queue fed by the background reader thread (`io.rs`) is a
  schedule `List (Option String)`: a `some s` entry is an arrived line, a
  `none` entry is an instant at which the queue is observed empty.
  `recv` (the blocking macro) skips empty instants; `tryRecv` (the
  non-blocking macro) consumes exactly one schedule entry.
* External collaborators (the SSML parser crate, the piper synthesis
  backend, model-config files, the float/int parsers of the Rust standard
  library, log files) are oracles carried in an environment structure;
  the control flow of `main.rs` around them is translated verbatim.
* `send!`/`print!` output is collected in a trace of `Out` events, in
  emission order.
-/

/-! ## The line channel (io.rs) -/

/-- A schedule of the stdin queue: `some s` is a line handed over by the
background reader thread, `none` an instant where `try_recv` finds the
queue empty. -/
abbrev Queue := List (Option String)

/-- Blocking `recv!`: wait (skip empty instants) until a line arrives;
`none` when the schedule is exhausted (the model's stand-in for blocking
forever / fatal channel closure). -/
def recv : Queue → Option (String × Queue)
  | [] => none
  | none :: q => recv q
  | some s :: q => some (s, q)

/-- Non-blocking `try_recv!`: consume one schedule entry, returning the
line if one had arrived. -/
def tryRecv : Queue → Option String × Queue
  | [] => (none, [])
  | none :: q => (none, q)
  | some s :: q => (some s, q)

theorem recv_length {q : Queue} {s : String} {q' : Queue}
    (h : recv q = some (s, q')) : q'.length < q.length := by
  induction q with
  | nil => simp [recv] at h
  | cons hd tl ih =>
    cases hd with
    | none =>
      simp only [recv] at h
      exact Nat.lt_trans (ih h) (Nat.lt_succ_self _)
    | some v =>
      simp only [recv, Option.some.injEq, Prod.mk.injEq] at h
      simp [← h.2]

/-! ## The audio escape codec

`speak` (main.rs, lines 426–431) escapes a chunk of raw audio in place,
scanning from the end:

    for i in (0..audio.len()).rev() \x7b
        if audio[i] == b'\n' || audio[i] == 0x7d \x7b
            audio[i] ^= 1 << 5;
            audio.insert(i, 0x7d);
        \x7d
    \x7d
-/

/-- One iteration of the escape loop at index `i`: if the byte there is a
newline (0x0A) or the marker (0x7D), XOR it with bit 5 and insert a
marker byte right before it. -/
def escapeStep (audio : List Nat) (i : Nat) : List Nat :=
  match audio[i]? with
  | some b =>
    if b = 0x0A ∨ b = 0x7D then
      audio.take i ++ [0x7D, b ^^^ 0x20] ++ audio.drop (i + 1)
    else
      audio
  | none => audio

/-- The loop `for i in (0..len).rev()`: run `escapeStep` at indices
`i-1, i-2, …, 0`. -/
def escapeFrom (audio : List Nat) : Nat → List Nat
  | 0 => audio
  | i + 1 => escapeFrom (escapeStep audio i) i

/-- The escaping transform exactly as `speak` performs it on each audio
chunk before transmission. -/
def encode (audio : List Nat) : List Nat :=
  escapeFrom audio audio.length

/-- Functional characterisation of the escape of a single byte. -/
def escByte (b : Nat) : List Nat :=
  if b = 0x0A ∨ b = 0x7D then [0x7D, b ^^^ 0x20] else [b]

theorem escapeFrom_append (u v : List Nat) :
    escapeFrom (u ++ v) u.length = u.flatMap escByte ++ v := by
  induction u using List.reverseRecOn generalizing v with
  | nil => simp [escapeFrom]
  | append_singleton u b ih =>
    have hstep : escapeStep (u ++ [b] ++ v) u.length = u ++ escByte b ++ v := by
      have hget : (u ++ [b] ++ v)[u.length]? = some b := by
        rw [List.append_assoc, List.getElem?_append_right (Nat.le_refl _)]
        simp
      have htake : (u ++ [b] ++ v).take u.length = u := by
        rw [List.append_assoc]
        exact List.take_left u ([b] ++ v)
      have hdrop : (u ++ [b] ++ v).drop (u.length + 1) = v := by
        have hl : u.length + 1 = (u ++ [b]).length := by simp
        rw [hl]
        exact List.drop_left (u ++ [b]) v
      unfold escapeStep
      rw [hget]
      by_cases hb : b = 0x0A ∨ b = 0x7D
      · simp [hb, escByte, htake, hdrop]
      · simp [hb, escByte]
    have hlen : (u ++ [b]).length = u.length + 1 := by simp
    calc escapeFrom (u ++ [b] ++ v) (u ++ [b]).length
        = escapeFrom (escapeStep (u ++ [b] ++ v) u.length) u.length := by
          rw [hlen]; rfl
      _ = escapeFrom (u ++ (escByte b ++ v)) u.length := by
          rw [hstep, List.append_assoc]
      _ = u.flatMap escByte ++ (escByte b ++ v) := ih _
      _ = (u ++ [b]).flatMap escByte ++ v := by simp

/-- `encode` is the byte-wise escape map. -/
theorem encode_eq_flatMap (audio : List Nat) :
    encode audio = audio.flatMap escByte := by
  have h := escapeFrom_append audio []
  simpa [encode] using h

/-- Modelled from the spec: the host-side decoder ("an escape-marker byte
indicates the following byte must be XORed back to recover the
original"); the decoder itself lives in the host daemon, not in this
repository. -/
def decode : List Nat → List Nat
  | [] => []
  | b :: rest =>
    if b = 0x7D then
      match rest with
      | [] => []
      | c :: rest' => (c ^^^ 0x20) :: decode rest'
    else
      b :: decode rest

/-- A buffer is well escaped when every 0x7D in it is the marker of a
(marker, XORed-original) pair — the byte after it is an escaped 0x0A
(0x2A) or an escaped 0x7D (0x5D) — and no raw 0x0A occurs at all. -/
def wellEscaped : List Nat → Prop
  | [] => True
  | b :: rest =>
    if b = 0x7D then
      match rest with
      | [] => False
      | c :: rest' => (c = 0x2A ∨ c = 0x5D) ∧ wellEscaped rest'
    else
      b ≠ 0x0A ∧ wellEscaped rest

theorem decode_flatMap_escByte (l : List Nat) :
    decode (l.flatMap escByte) = l := by
  induction l with
  | nil => simp [decode]
  | cons b rest ih =>
    rw [List.flatMap_cons]
    by_cases hb : b = 0x0A ∨ b = 0x7D
    · have hx : b ^^^ 0x20 ^^^ 0x20 = b := by
        rw [Nat.xor_assoc, Nat.xor_self, Nat.xor_zero]
      have he : escByte b = [0x7D, b ^^^ 0x20] := if_pos hb
      rw [he]
      show decode (0x7D :: (b ^^^ 0x20) :: rest.flatMap escByte) = b :: rest
      have : decode (0x7D :: (b ^^^ 0x20) :: rest.flatMap escByte)
          = (b ^^^ 0x20 ^^^ 0x20) :: decode (rest.flatMap escByte) := by
        conv_lhs => rw [decode]
        rw [if_pos rfl]
      rw [this, hx, ih]
    · push_neg at hb
      have he : escByte b = [b] := if_neg (by tauto)
      rw [he]
      show decode (b :: rest.flatMap escByte) = b :: rest
      have : decode (b :: rest.flatMap escByte)
          = b :: decode (rest.flatMap escByte) := by
        conv_lhs => rw [decode.eq_def]
        exact if_neg hb.2
      rw [this, ih]

theorem wellEscaped_flatMap_escByte (l : List Nat) :
    wellEscaped (l.flatMap escByte) := by
  induction l with
  | nil => simp [wellEscaped]
  | cons b rest ih =>
    rw [List.flatMap_cons]
    by_cases hb : b = 0x0A ∨ b = 0x7D
    · have hc : b ^^^ 0x20 = 0x2A ∨ b ^^^ 0x20 = 0x5D := by
        rcases hb with h | h <;> subst h <;> [left; right] <;> decide
      have he : escByte b = [0x7D, b ^^^ 0x20] := if_pos hb
      rw [he]
      show wellEscaped (0x7D :: (b ^^^ 0x20) :: rest.flatMap escByte)
      have : wellEscaped (0x7D :: (b ^^^ 0x20) :: rest.flatMap escByte)
          = ((b ^^^ 0x20 = 0x2A ∨ b ^^^ 0x20 = 0x5D) ∧
              wellEscaped (rest.flatMap escByte)) := by
        conv_lhs => rw [wellEscaped]
        rw [if_pos rfl]
      rw [this]
      exact ⟨hc, ih⟩
    · push_neg at hb
      have he : escByte b = [b] := if_neg (by tauto)
      rw [he]
      show wellEscaped (b :: rest.flatMap escByte)
      have : wellEscaped (b :: rest.flatMap escByte)
          = (b ≠ 0x0A ∧ wellEscaped (rest.flatMap escByte)) := by
        conv_lhs => rw [wellEscaped.eq_def]
        exact if_neg hb.2
      rw [this]
      exact ⟨hb.1, ih⟩

/-! ## Prosody mapping (the SET handler, main.rs lines 236–270)

The Rust code stores `value.parse::<f32>()? / 100.0` and then applies a
piecewise-linear interpolation toward the documented min/neutral/max
bounds.  The `f32` arithmetic is modelled exactly over `Rat`; every
constant involved (0.5, 1.0, 2.0, 4.5, 100.0) is exactly representable
in `f32`. -/

/-- The pitch transform of the `SET` handler: input is a percentage
centred at 0; NORMAL 1.0, MIN 0.5, MAX 2.0. -/
def pitchFactor (v : Rat) : Rat :=
  let p := v / 100
  if p < 0 then 1 + (1 - 1/2) * p else 1 + (2 - 1) * p

/-- The rate transform of the `SET` handler: input is a percentage
centred at 0; NORMAL 1.0, MIN 0.5, MAX 4.5. -/
def rateFactor (v : Rat) : Rat :=
  let r := v / 100
  if r < 0 then 1 + (1 - 1/2) * r else 1 + (9/2 - 1) * r

/-- The volume transform of the `SET` handler: a direct
percentage-to-fraction conversion. -/
def volumeFactor (v : Rat) : Rat := v / 100

theorem rateFactor_strictMono : StrictMono rateFactor := by
  intro a b hab
  unfold rateFactor
  simp only
  have h100 : (0:Rat) < 100 := by norm_num
  have hdiv : a / 100 < b / 100 := by
    exact div_lt_div_of_pos_right hab h100
  by_cases ha : a / 100 < 0 <;> by_cases hb : b / 100 < 0
  · rw [if_pos ha, if_pos hb]; nlinarith
  · rw [if_pos ha, if_neg hb]
    push_neg at hb
    nlinarith
  · exact absurd (lt_trans hdiv hb) ha
  · rw [if_neg ha, if_neg hb]
    push_neg at ha hb
    nlinarith

theorem pitchFactor_strictMono : StrictMono pitchFactor := by
  intro a b hab
  unfold pitchFactor
  simp only
  have h100 : (0:Rat) < 100 := by norm_num
  have hdiv : a / 100 < b / 100 := by
    exact div_lt_div_of_pos_right hab h100
  by_cases ha : a / 100 < 0 <;> by_cases hb : b / 100 < 0
  · rw [if_pos ha, if_pos hb]; nlinarith
  · rw [if_pos ha, if_neg hb]
    push_neg at hb
    nlinarith
  · exact absurd (lt_trans hdiv hb) ha
  · rw [if_neg ha, if_neg hb]
    push_neg at ha hb
    nlinarith

/-- C2: the audio escaping transform (reverse scan, XOR with 0x20 and a
0x7D marker inserted before each escaped byte) is exactly invertible —
`decode (encode B) = B` — and its output contains no raw 0x0A or 0x7D
byte except as the marker byte of a valid (marker, XORed-original)
pair. -/
theorem C2_escape_roundtrip (B : List Nat) :
    decode (encode B) = B ∧ wellEscaped (encode B) := by
  rw [encode_eq_flatMap]
  exact ⟨decode_flatMap_escByte B, wellEscaped_flatMap_escByte B⟩

/-- C6: the SET prosody mapping is piecewise linear: rate maps 0 ↦ 1.0,
100 ↦ 4.5, -100 ↦ 0.5 and is strictly increasing; pitch has the same
shape with bounds 0.5 / 1.0 / 2.0. -/
theorem C6_prosody_mapping :
    rateFactor 0 = 1 ∧ rateFactor 100 = 9/2 ∧ rateFactor (-100) = 1/2 ∧
    StrictMono rateFactor ∧
    pitchFactor 0 = 1 ∧ pitchFactor 100 = 2 ∧ pitchFactor (-100) = 1/2 ∧
    StrictMono pitchFactor := by
  refine ⟨?_, ?_, ?_, rateFactor_strictMono, ?_, ?_, ?_, pitchFactor_strictMono⟩
  · norm_num [rateFactor]
  · norm_num [rateFactor]
  · norm_num [rateFactor]
  · norm_num [pitchFactor]
  · norm_num [pitchFactor]
  · norm_num [pitchFactor]

/-! ## Voice name derivation (voice discovery, main.rs lines 115–126)

Strings are modelled as `List Char`; `Char.toLower` models Rust
`str::to_lowercase` (the voice file names and accent codes involved are
ASCII, where the two agree, and byte indices coincide with character
indices). -/

/-- Rust `Path::file_prefix`: the portion of the file name before the
first non-leading `'.'`. -/
def fileStem : List Char → List Char
  | '.' :: rest => '.' :: rest.takeWhile (fun c => c ≠ '.')
  | s => s.takeWhile (fun c => c ≠ '.')

/-- `name.to_lowercase().replace('_', "-")`. -/
def lowerDash (s : List Char) : List Char :=
  s.map (fun c => if c.toLower = '_' then '-' else c.toLower)

/-- The guard of the prefix-stripping branch:
`name.to_lowercase().replace('_',"-").strip_prefix(&accent)`
`.is_some_and(|name| name.starts_with(['-','_']))`. -/
def stripAccentCond (name accent : List Char) : Bool :=
  accent.isPrefixOf (lowerDash name) &&
    (match (lowerDash name).drop accent.length with
     | c :: _ => c == '-' || c == '_'
     | [] => false)

/-- Derivation of a voice's public name from its model-config file name:
strip the extension(s), then strip a leading accent prefix (matched
case- and separator-insensitively) when one is present. -/
def deriveVoiceName (fileName accent : List Char) : List Char :=
  let name := fileStem fileName
  if stripAccentCond name accent then
    name.drop (accent.length + 1)
  else
    name

/-- C7: the config filename `en_US-amy-medium.onnx.json` with accent
code `en-us` derives the public name `amy-medium`, and a filename whose
name does not begin with the accent prefix followed by `-` or `_` is
left unchanged. -/
theorem C7_voice_name_derivation :
    deriveVoiceName "en_US-amy-medium.onnx.json".toList "en-us".toList
      = "amy-medium".toList ∧
    ∀ (fileName accent : List Char),
      stripAccentCond (fileStem fileName) accent = false →
      deriveVoiceName fileName accent = fileStem fileName := by
  constructor
  · decide
  · intro f a h
    unfold deriveVoiceName
    simp [h]

/-- Witness for C7: the stripping condition fails on
`foo-bar.onnx.json` with accent `en-us`, and the derived name is then
the unchanged file stem `foo-bar`. -/
theorem C7_voice_name_derivation_witness :
    deriveVoiceName "foo-bar.onnx.json".toList "en-us".toList
      = fileStem "foo-bar.onnx.json".toList :=
  C7_voice_name_derivation.2 _ _ (by decide)

/-! ## The markup tree and the playback state machine (main.rs, `speak`)

`speak` walks the parsed SSML elements; the modelled variants are the
three the code handles (`Speak`, `Text`, `Mark`) — every other variant
hits `unimplemented!()` and is outside every claim.  Synthesis is an
oracle `synth : String → List (Except String (List Nat))`: the lazy
chunk sequence the backend yields for a text, each chunk either audio
bytes or a backend error (the Rust `audio?`). -/

inductive SsmlElement where
  | speakEl (children : List SsmlElement)
  | text (s : String)
  | mark (name : String)

inductive StopCondition where
  | End
  | Stop
  | Pause (handled : Bool)
deriving DecidableEq

/-- One observable output: a protocol line (`send!`) or a transmitted
escaped audio payload (the `705-AUDIO\0` + payload + newline block). -/
inductive Out where
  | line (s : String)
  | audio (payload : List Nat)
deriving DecidableEq

/-- Audio format metadata of the active synthesizer
(`model.audio_output_info()`). -/
structure VoiceInfo where
  sampleWidth : Nat
  numChannels : Nat
  sampleRate : Nat

/-- Rust `format!("{:?}")` of a `String`/`str` (quotes and escapes; the
escapes cover the characters occurring in this development). -/
def rustDebug (s : String) : String :=
  "\"" ++ String.join (s.toList.map (fun c =>
    if c = '"' then "\\\""
    else if c = '\\' then "\\\\"
    else if c = '\n' then "\\n"
    else String.singleton c)) ++ "\""

/-- The per-chunk transmission block: the four `705-` metadata lines,
the escaped payload, and the `705 AUDIO` terminator. -/
def chunkOut (info : VoiceInfo) (bytes : List Nat) : List Out :=
  [ .line ("705-bits=" ++ toString (info.sampleWidth * 8)),
    .line ("705-num_channels=" ++ toString info.numChannels),
    .line ("705-sample_rate=" ++ toString info.sampleRate),
    .line ("705-num_samples=" ++ toString (bytes.length / info.sampleWidth)),
    .audio (encode bytes),
    .line "705 AUDIO" ]

/-- Environment of one `speak` call: the active voice, its audio format,
the synthesizer constructor (`from_config_path` + `new`, an oracle:
`ok` or the error context chain) and the synthesis oracle. -/
structure SpeakEnv where
  voice : String
  info : VoiceInfo
  modelLoad : String → Except (List String) Unit
  synth : String → List (Except String (List Nat))

/-- Result of the chunk-streaming loop of a Text node: interrupted by
STOP, ran to completion (with the final pause-pending flag), or failed
(`bail!` on an unexpected command, or a backend chunk error). -/
inductive ChunkRes where
  | stopped (out : List Out) (q : Queue)
  | done (sp : Bool) (out : List Out) (q : Queue)
  | err (chain : List String) (out : List Out) (q : Queue)
deriving DecidableEq

mutual

/-- The `for audio in output` loop of a Text node: before each chunk,
poll for an interrupt; STOP aborts, PAUSE sets pause-pending, any other
line is a `bail!`; then transmit the chunk. -/
def streamChunks (info : VoiceInfo) :
    List (Except String (List Nat)) → Bool → Queue → ChunkRes
  | [], sp, q => .done sp [] q
  | chunk :: rest, sp, q =>
    match tryRecv q with
    | (some cmd, q') =>
      if cmd = "STOP" then .stopped [] q'
      else if cmd = "PAUSE" then emitChunk info chunk rest true q'
      else .err ["Unexpected command during playback: " ++ rustDebug cmd] [] q'
    | (none, q') => emitChunk info chunk rest sp q'
  termination_by chunks _ _ => 2 * chunks.length + 1

/-- Transmit one chunk (after the interrupt poll) and continue. -/
def emitChunk (info : VoiceInfo) (chunk : Except String (List Nat))
    (rest : List (Except String (List Nat))) (sp : Bool) (q : Queue) : ChunkRes :=
  match chunk with
  | .error e => .err [e] [] q
  | .ok bytes =>
    match streamChunks info rest sp q with
    | .stopped out q' => .stopped (chunkOut info bytes ++ out) q'
    | .done sp' out q' => .done sp' (chunkOut info bytes ++ out) q'
    | .err ch out q' => .err ch (chunkOut info bytes ++ out) q'
  termination_by 2 * rest.length + 2

end

/-- Result of `speak`: `Ok(StopCondition)` with the emitted trace, the
updated synthesizer cache and the remaining queue, or `Err` with the
error context chain. -/
inductive SpeakRes where
  | ok (c : StopCondition) (out : List Out) (cached : List String) (q : Queue)
  | err (chain : List String) (out : List Out) (cached : List String) (q : Queue)
deriving DecidableEq

/-- Prefix already-emitted output onto a later result (sequencing of
side effects). -/
def prependOut (out : List Out) : SpeakRes → SpeakRes
  | .ok c out2 cached q => .ok c (out ++ out2) cached q
  | .err ch out2 cached q => .err ch (out ++ out2) cached q

/-- Lazy synthesizer construction for the active voice: the cached
instance if present, else the `modelLoad` oracle (construction failure
is an error, not cached). -/
def loadSynth (env : SpeakEnv) (cached : List String) :
    Except (List String) (List String) :=
  if env.voice ∈ cached then .ok cached
  else
    match env.modelLoad env.voice with
    | .ok _ => .ok (env.voice :: cached)
    | .error ch => .error ch

/-- The playback state machine `speak` (main.rs lines 348–458):
traverse the elements with a `should_pause` flag; a nested Speak region
recurses (Stop and Pause(handled) propagate immediately, Pause(pending)
sets the flag); a Text node streams its chunks; a Mark emits the index
mark event and, when a pause is pending, resolves it. -/
def speak (env : SpeakEnv) :
    List SsmlElement → Bool → List String → Queue → SpeakRes
  | [], sp, cached, q =>
    .ok (if sp then .Pause false else .End) [] cached q
  | el :: rest, sp, cached, q =>
    match el with
    | .speakEl children =>
      match speak env children false cached q with
      | .err ch out cached' q' => .err ch out cached' q'
      | .ok .End out cached' q' =>
        prependOut out (speak env rest sp cached' q')
      | .ok .Stop out cached' q' => .ok .Stop out cached' q'
      | .ok (.Pause true) out cached' q' => .ok (.Pause true) out cached' q'
      | .ok (.Pause false) out cached' q' =>
        prependOut out (speak env rest true cached' q')
    | .text s =>
      match loadSynth env cached with
      | .error ch => .err ch [] cached q
      | .ok cached' =>
        match streamChunks env.info (env.synth s) sp q with
        | .stopped out q' => .ok .Stop out cached' q'
        | .err ch out q' => .err ch out cached' q'
        | .done sp' out q' => prependOut out (speak env rest sp' cached' q')
    | .mark name =>
      let mout := [Out.line ("700-" ++ name), Out.line "700 INDEX MARK"]
      if sp then .ok (.Pause true) mout cached q
      else prependOut mout (speak env rest sp cached q)
  termination_by elements _ _ _ => sizeOf elements

theorem speak_nil (env : SpeakEnv) (sp : Bool) (cached : List String) (q : Queue) :
    speak env [] sp cached q =
      .ok (if sp then .Pause false else .End) [] cached q := by
  rw [speak]

theorem speak_cons_speakEl (env : SpeakEnv) (children rest : List SsmlElement)
    (sp : Bool) (cached : List String) (q : Queue) :
    speak env (.speakEl children :: rest) sp cached q =
      match speak env children false cached q with
      | .err ch out cached' q' => .err ch out cached' q'
      | .ok .End out cached' q' => prependOut out (speak env rest sp cached' q')
      | .ok .Stop out cached' q' => .ok .Stop out cached' q'
      | .ok (.Pause true) out cached' q' => .ok (.Pause true) out cached' q'
      | .ok (.Pause false) out cached' q' =>
        prependOut out (speak env rest true cached' q') := by
  rw [speak]

theorem speak_cons_text (env : SpeakEnv) (s : String) (rest : List SsmlElement)
    (sp : Bool) (cached : List String) (q : Queue) :
    speak env (.text s :: rest) sp cached q =
      match loadSynth env cached with
      | .error ch => .err ch [] cached q
      | .ok cached' =>
        match streamChunks env.info (env.synth s) sp q with
        | .stopped out q' => .ok .Stop out cached' q'
        | .err ch out q' => .err ch out cached' q'
        | .done sp' out q' => prependOut out (speak env rest sp' cached' q') := by
  rw [speak]

theorem speak_cons_mark (env : SpeakEnv) (name : String) (rest : List SsmlElement)
    (sp : Bool) (cached : List String) (q : Queue) :
    speak env (.mark name :: rest) sp cached q =
      if sp then
        .ok (.Pause true) [Out.line ("700-" ++ name), Out.line "700 INDEX MARK"] cached q
      else
        prependOut [Out.line ("700-" ++ name), Out.line "700 INDEX MARK"]
          (speak env rest sp cached q) := by
  rw [speak]

theorem streamChunks_nil (info : VoiceInfo) (sp : Bool) (q : Queue) :
    streamChunks info [] sp q = .done sp [] q := by
  rw [streamChunks]

theorem streamChunks_cons (info : VoiceInfo) (chunk : Except String (List Nat))
    (rest : List (Except String (List Nat))) (sp : Bool) (q : Queue) :
    streamChunks info (chunk :: rest) sp q =
      match tryRecv q with
      | (some cmd, q') =>
        if cmd = "STOP" then .stopped [] q'
        else if cmd = "PAUSE" then emitChunk info chunk rest true q'
        else .err ["Unexpected command during playback: " ++ rustDebug cmd] [] q'
      | (none, q') => emitChunk info chunk rest sp q' := by
  rw [streamChunks]

theorem emitChunk_eq (info : VoiceInfo) (chunk : Except String (List Nat))
    (rest : List (Except String (List Nat))) (sp : Bool) (q : Queue) :
    emitChunk info chunk rest sp q =
      match chunk with
      | .error e => .err [e] [] q
      | .ok bytes =>
        match streamChunks info rest sp q with
        | .stopped out q' => .stopped (chunkOut info bytes ++ out) q'
        | .done sp' out q' => .done sp' (chunkOut info bytes ++ out) q'
        | .err ch out q' => .err ch (chunkOut info bytes ++ out) q' := by
  rw [emitChunk.eq_def]

/-! Concrete playback environment for the scenario claims: one cached
voice "amy", text "t1" synthesizing to a single chunk `[1, 2]` and any
other text to a single chunk `[3, 4]`. -/

def demoInfo : VoiceInfo := ⟨2, 1, 22050⟩

def demoSynth (t : String) : List (Except String (List Nat)) :=
  if t = "t1" then [Except.ok [1, 2]] else [Except.ok [3, 4]]

def demoEnv : SpeakEnv := ⟨"amy", demoInfo, fun _ => Except.ok (), demoSynth⟩

theorem demoEnv_voice : demoEnv.voice = "amy" := rfl

theorem demoEnv_synth (t : String) : demoEnv.synth t = demoSynth t := rfl

/-- C1: pause propagates as a return-value state machine: a child
region's `Pause(handled=true)` is returned immediately; a child's
`Pause(handled=false)` sets pause-pending and the remaining siblings at
the same level are still processed; a Mark reached while pause-pending
emits the mark event and returns `Pause(handled=true)`; and for the
document `[Text "t1", Mark "m1", Text "t2"]` with PAUSE received during
the first text's streaming the outcome is `Pause(handled=true)`
resolved exactly at `m1`, the trace being the first text's audio block
followed by the `m1` mark lines — no audio for the second text. -/
theorem C1_pause_propagation :
    (∀ (env : SpeakEnv) (children rest : List SsmlElement) (sp : Bool)
        (cached : List String) (q : Queue) (out : List Out)
        (cached' : List String) (q' : Queue),
      speak env children false cached q = .ok (.Pause true) out cached' q' →
      speak env (.speakEl children :: rest) sp cached q
        = .ok (.Pause true) out cached' q') ∧
    (∀ (env : SpeakEnv) (children rest : List SsmlElement) (sp : Bool)
        (cached : List String) (q : Queue) (out : List Out)
        (cached' : List String) (q' : Queue),
      speak env children false cached q = .ok (.Pause false) out cached' q' →
      speak env (.speakEl children :: rest) sp cached q
        = prependOut out (speak env rest true cached' q')) ∧
    (∀ (env : SpeakEnv) (name : String) (rest : List SsmlElement)
        (cached : List String) (q : Queue),
      speak env (.mark name :: rest) true cached q
        = .ok (.Pause true)
            [Out.line ("700-" ++ name), Out.line "700 INDEX MARK"] cached q) ∧
    speak demoEnv [.text "t1", .mark "m1", .text "t2"] false ["amy"] [some "PAUSE"]
      = .ok (.Pause true)
          (chunkOut demoInfo [1, 2] ++ [Out.line "700-m1", Out.line "700 INDEX MARK"])
          ["amy"] [] := by
  refine ⟨?_, ?_, ?_, ?_⟩
  · intro env children rest sp cached q out cached' q' h
    rw [speak_cons_speakEl, h]
  · intro env children rest sp cached q out cached' q' h
    rw [speak_cons_speakEl, h]
  · intro env name rest cached q
    rw [speak_cons_mark]
    simp
  · simp [speak_cons_text, speak_cons_mark, speak_nil, loadSynth, demoEnv,
      demoSynth, streamChunks_cons, streamChunks_nil, emitChunk_eq, tryRecv,
      prependOut]

/-- Witness for C1: the two propagation rules applied at concrete
inputs — a nested region resolving a pause at its own mark propagates
`Pause(handled=true)` past a pending sibling, and a nested region ending
with an unhandled pause makes the traversal continue over the remaining
siblings with pause pending. -/
theorem C1_pause_propagation_witness :
    speak demoEnv [.speakEl [.text "t1", .mark "m0"], .mark "m9"] false
        ["amy"] [some "PAUSE"]
      = .ok (.Pause true)
          (chunkOut demoInfo [1, 2] ++ [Out.line "700-m0", Out.line "700 INDEX MARK"])
          ["amy"] [] ∧
    speak demoEnv [.speakEl [.text "t1"], .mark "m1"] false ["amy"] [some "PAUSE"]
      = prependOut (chunkOut demoInfo [1, 2])
          (speak demoEnv [.mark "m1"] true ["amy"] []) := by
  constructor
  · exact C1_pause_propagation.1 demoEnv _ _ _ _ _ _ _ _
      (by simp [speak_cons_text, speak_cons_mark, speak_nil, loadSynth, demoEnv,
        demoSynth, streamChunks_cons, streamChunks_nil, emitChunk_eq, tryRecv,
        prependOut])
  · exact C1_pause_propagation.2.1 demoEnv _ _ _ _ _ _ _ _
      (by simp [speak_cons_text, speak_nil, loadSynth, demoEnv,
        demoSynth, streamChunks_cons, streamChunks_nil, emitChunk_eq, tryRecv,
        prependOut])

/-- C3: a STOP line observed by the interrupt poll during a Text node's
chunk streaming makes the traversal return `Stop` immediately with no
output, and a child region's `Stop` propagates up immediately,
abandoning all remaining siblings; concretely, STOP during the first
text of `[Speak [Text "t1", Mark "m1"], Text "t2"]` yields `Stop` with
an empty trace — no mark events and no audio at all. -/
theorem C3_stop_propagation :
    (∀ (env : SpeakEnv) (s : String) (rest : List SsmlElement) (sp : Bool)
        (cached : List String) (q : Queue),
      env.voice ∈ cached → env.synth s ≠ [] →
      speak env (.text s :: rest) sp cached (some "STOP" :: q)
        = .ok .Stop [] cached q) ∧
    (∀ (env : SpeakEnv) (children rest : List SsmlElement) (sp : Bool)
        (cached : List String) (q : Queue) (out : List Out)
        (cached' : List String) (q' : Queue),
      speak env children false cached q = .ok .Stop out cached' q' →
      speak env (.speakEl children :: rest) sp cached q = .ok .Stop out cached' q') ∧
    speak demoEnv [.speakEl [.text "t1", .mark "m1"], .text "t2"] false
        ["amy"] [some "STOP"]
      = .ok .Stop [] ["amy"] [] := by
  refine ⟨?_, ?_, ?_⟩
  · intro env s rest sp cached q h1 h2
    obtain ⟨c, cs, hc⟩ := List.exists_cons_of_ne_nil h2
    have hload : loadSynth env cached = .ok cached := by
      unfold loadSynth
      rw [if_pos h1]
    rw [speak_cons_text, hload, hc, streamChunks_cons]
    simp [tryRecv]
  · intro env children rest sp cached q out cached' q' h
    rw [speak_cons_speakEl, h]
  · simp [speak_cons_speakEl, speak_cons_text, speak_cons_mark, speak_nil,
      loadSynth, demoEnv, demoSynth, streamChunks_cons, streamChunks_nil,
      emitChunk_eq, tryRecv, prependOut]

/-- Witness for C3: both propagation rules at concrete inputs — STOP at
the first chunk boundary of a text with one sibling mark, and a nested
region returning `Stop` below a pending sibling text. -/
theorem C3_stop_propagation_witness :
    speak demoEnv [.text "t1", .mark "m1"] false ["amy"] (some "STOP" :: [])
      = .ok .Stop [] ["amy"] [] ∧
    speak demoEnv [.speakEl [.text "t1"], .text "t2"] false ["amy"] [some "STOP"]
      = .ok .Stop [] ["amy"] [] := by
  constructor
  · exact C3_stop_propagation.1 demoEnv "t1" _ false ["amy"] []
      (by simp [demoEnv_voice]) (by simp [demoEnv_synth, demoSynth])
  · exact C3_stop_propagation.2.1 demoEnv _ _ _ _ _ _ _ _
      (by simp [speak_cons_text, speak_nil, loadSynth, demoEnv, demoSynth,
        streamChunks_cons, streamChunks_nil, emitChunk_eq, tryRecv, prependOut])

/-! ## The command dispatcher (`start`, main.rs lines 43–340)

The dispatcher loop is modelled over the same queue schedule; the
sub-dialog loops consume the queue structurally (a `none` entry is an
empty instant the blocking `recv!` waits through).  The SSML parser, the
model-config reader, the synthesis backend and the standard-library
numeric parsers are oracles in `ModuleEnv`.  `start` bails out of the
whole process with an `anyhow` error-context chain (modelled as a
`List String`, outermost context first); `main` then prints one `300-`
continuation line per chain element and the `300 MODULE ERROR`
terminator. -/

/-- Rust `str::split_once`: split at the first occurrence of `sep`. -/
def splitOnce (sep : Char) : List Char → Option (List Char × List Char)
  | [] => none
  | c :: rest =>
    if c = sep then some ([], rest)
    else
      match splitOnce sep rest with
      | some (a, b) => some (c :: a, b)
      | none => none

def splitOnceStr (sep : Char) (s : String) : Option (String × String) :=
  (splitOnce sep s.toList).map (fun p => (String.mk p.1, String.mk p.2))

/-- Rust `str::strip_prefix` (the `DEBUG ON ` guard). -/
def stripPre : List Char → List Char → Option (List Char)
  | [], s => some s
  | _, [] => none
  | a :: p, b :: s => if a = b then stripPre p s else none

def stripPreStr (p s : String) : Option String :=
  (stripPre p.toList s.toList).map String.mk

/-- The fields of a parsed model-config file used by `LIST VOICES`. -/
structure ModelConfigData where
  espeakVoice : String
  dataset : Option String

/-- Oracles for the external collaborators of the dispatcher. -/
structure ModuleEnv where
  /-- discovered voice names, in registry iteration order -/
  voices : List String
  /-- re-open and re-parse a voice's model config (`LIST VOICES`);
  `none` models an unreadable or unparseable config -/
  config : String → Option ModelConfigData
  /-- `audio_output_info()` of a voice's model -/
  infoOf : String → VoiceInfo
  /-- synthesizer construction (`from_config_path` + `new`) -/
  modelLoad : String → Except (List String) Unit
  /-- synthesis: voice, pitch, rate, volume, text ↦ chunk sequence -/
  synth : String → Rat → Rat → Rat → String → List (Except String (List Nat))
  /-- `serde_ssml::from_str`: elements, or the list of parse errors -/
  parseSsml : String → Except (List String) (List SsmlElement)
  /-- `str::parse::<f32>` (`None` = parse failure) -/
  parseF32 : String → Option Rat
  /-- `str::parse::<usize>` (`None` = parse failure) -/
  parseUsize : String → Option Nat
  /-- whether `fern::log_file(path)` succeeds (`DEBUG ON`) -/
  logFileOk : String → Bool

/-- The mutable state of the dispatcher loop. -/
structure DmState where
  pitch : Rat
  rate : Rat
  volume : Rat
  voice : String
  cached : List String
deriving DecidableEq

def setCached (st : DmState) (cached : List String) : DmState :=
  { st with cached := cached }

/-- Result of one command handler: continue the loop with new state and
queue, abort the process with an error chain (`bail!`/`?` out of
`start`), or run out of scheduled input mid-dialog (model artifact for
blocking forever). -/
inductive SubRes where
  | done (out : List Out) (st : DmState) (q : Queue)
  | fatal (out : List Out) (chain : List String)
  | noInput (out : List Out)
deriving DecidableEq

def prependSub (out : List Out) : SubRes → SubRes
  | .done out2 st q => .done (out ++ out2) st q
  | .fatal out2 ch => .fatal (out ++ out2) ch
  | .noInput out2 => .noInput (out ++ out2)

def appendDone (r : SubRes) (out : List Out) : SubRes :=
  match r with
  | .done o st q => .done (o ++ out) st q
  | r => r

/-- The `LOGLEVEL` key=value sub-dialog (unknown keys warned and
ignored; an unparseable or out-of-range value aborts `start`). -/
def logLevelLoop (env : ModuleEnv) (st : DmState) : Queue → SubRes
  | [] => .noInput []
  | none :: q => logLevelLoop env st q
  | some line :: q =>
    if line = "." then .done [] st q
    else
      match splitOnceStr '=' line with
      | some (key, value) =>
        if key = "log_level" then
          match env.parseUsize value with
          | none => .fatal [] ["Invalid value for log_level", "invalid digit found in string"]
          | some n =>
            if n = 1 ∨ n = 2 ∨ n = 3 ∨ n = 4 ∨ n = 5 then logLevelLoop env st q
            else .fatal [] ["Invalid value for log_level"]
        else logLevelLoop env st q
      | none => .fatal [] ["Malformed setting"]

/-- The `SET` key=value sub-dialog: pitch/rate map through the
piecewise-linear prosody transforms, volume through the direct
conversion, `synthesis_voice` only to a known voice; a line without `=`
elicits the "Ignoring improperly formatted keypair" line; an
unparseable numeric value aborts `start` with the context chain of the
`?` operator. -/
def setLoop (env : ModuleEnv) (st : DmState) : Queue → SubRes
  | [] => .noInput []
  | none :: q => setLoop env st q
  | some line :: q =>
    if line = "." then .done [] st q
    else
      match splitOnceStr '=' line with
      | none =>
        prependSub [Out.line ("Ignoring improperly formatted keypair " ++ rustDebug line)]
          (setLoop env st q)
      | some (name, value) =>
        if name = "pitch" then
          match env.parseF32 value with
          | none => .fatal [] ["Invalid value for pitch", "invalid float literal"]
          | some v => setLoop env { st with pitch := pitchFactor v } q
        else if name = "rate" then
          match env.parseF32 value with
          | none => .fatal [] ["Invalid value for rate", "invalid float literal"]
          | some v => setLoop env { st with rate := rateFactor v } q
        else if name = "volume" then
          match env.parseF32 value with
          | none => .fatal [] ["Invalid value for volume", "invalid float literal"]
          | some v => setLoop env { st with volume := volumeFactor v } q
        else if name = "synthesis_voice" then
          if value ∈ env.voices then setLoop env { st with voice := value } q
          else setLoop env st q
        else setLoop env st q

/-- The `SPEAK` body reader: accumulate lines (each with a trailing
newline) until the lone `.` terminator. -/
def readBody : Queue → Option (String × Queue)
  | [] => none
  | none :: q => readBody q
  | some line :: q =>
    if line = "." then some ("", q)
    else
      match readBody q with
      | none => none
      | some (buf, q') => some (line ++ "\n" ++ buf, q')

/-- `anyhow`'s `{:?}` rendering of an error-context chain (message, then
a `Caused by:` block listing the causes, numbered when more than one). -/
def fmtErr : List String → String
  | [] => ""
  | [e] => e
  | [e, c] => e ++ "\n\nCaused by:\n    " ++ c
  | e :: rest =>
    e ++ "\n\nCaused by:" ++
      String.join (rest.enum.map (fun p => "\n    " ++ toString p.1 ++ ": " ++ p.2))

/-- The terminal status line for each playback outcome
(`Ok(End | Pause) → 702 END`, `Ok(Stop) → 703 STOP`). -/
def outcomeLine : StopCondition → String
  | .Stop => "703 STOP"
  | _ => "702 END"

/-- The `SPEAK` handler: read the body, parse it (a parse failure
returns the folded error-context chain out of `start`), then run the
playback state machine and map its outcome; a playback error is
reported via `703-` detail and the `703 STOP` terminator, and the loop
continues. -/
def handleSpeak (env : ModuleEnv) (st : DmState) (q : Queue) : SubRes :=
  let out0 := [Out.line "202 OK RECEIVING MESSAGE"]
  match readBody q with
  | none => .noInput out0
  | some (buf, q') =>
    match env.parseSsml buf with
    | .error errors => .fatal out0 (errors.reverse ++ ["SSML parsing failed"])
    | .ok elements =>
      let senv : SpeakEnv :=
        ⟨st.voice, env.infoOf st.voice, env.modelLoad,
          env.synth st.voice st.pitch st.rate st.volume⟩
      let out1 := out0 ++ [Out.line "200 OK SPEAKING", Out.line "701 BEGIN"]
      match speak senv elements false st.cached q' with
      | .ok c sout cached q'' =>
        .done (out1 ++ sout ++ [Out.line (outcomeLine c)]) (setCached st cached) q''
      | .err chain sout cached q'' =>
        .done (out1 ++ sout ++
            [Out.line ("703-" ++ fmtErr chain), Out.line "703 STOP"])
          (setCached st cached) q''

/-- The `LIST VOICES` body: one `200-` line per voice whose config is
readable and whose espeak voice code contains a `-`; the displayed
language tag is `lang_REGION` with the region uppercased. -/
def listVoices (env : ModuleEnv) : List Out :=
  env.voices.flatMap (fun name =>
    match env.config name with
    | none => []
    | some cfg =>
      match splitOnceStr '-' cfg.espeakVoice with
      | none => []
      | some (lang, region) =>
        [Out.line ("200-" ++ name ++ "\t" ++ lang ++ "_" ++ region.toUpper
          ++ "\t" ++ cfg.dataset.getD "none")])

/-- Dispatch of one received command line (the `match recv!().as_str()`
of the main loop). -/
def handleCmd (env : ModuleEnv) (st : DmState) (cmd : String) (q : Queue) : SubRes :=
  if cmd = "AUDIO" then
    let out0 := [Out.line "207 OK RECEIVING AUDIO SETTINGS"]
    match recv q with
    | none => .noInput out0
    | some (l1, q1) =>
      if l1 ≠ "audio_output_method=server" then
        .fatal out0 ["Audio output method must be server!"]
      else
        match recv q1 with
        | none => .noInput out0
        | some (l2, q2) =>
          if l2 ≠ "." then .fatal out0 ["Audio output method must be server!"]
          else .done (out0 ++ [Out.line "203 OK AUDIO INITIALIZED"]) st q2
  else if cmd = "LOGLEVEL" then
    prependSub [Out.line "207 OK RECEIVING LOGLEVEL SETTINGS"]
      (appendDone (logLevelLoop env st q) [Out.line "203 OK LOGLEVEL SET"])
  else if cmd = "LIST VOICES" then
    .done (listVoices env ++ [Out.line "200 OK VOICE LIST SENT"]) st q
  else if cmd = "SET" then
    prependSub [Out.line "203 OK RECEIVING SETTINGS"]
      (appendDone (setLoop env st q) [Out.line "203 OK SETTINGS RECEIVED"])
  else if cmd = "SPEAK" then
    handleSpeak env st q
  else
    match stripPreStr "DEBUG ON " cmd with
    | some path =>
      if env.logFileOk path then .done [Out.line "200 OK DEBUGGING ON"] st q
      else .fatal [] ["Error opening log file"]
    | none => .done [Out.line "300 ERR UNKNOWN COMMAND"] st q

inductive LoopExit where
  | fatal (chain : List String)
  | outOfInput
deriving DecidableEq

/-- The dispatcher loop, with fuel bounding the number of commands
processed (the model's stand-in for the endless `loop`; every theorem
below supplies ample fuel for its schedule). -/
def runLoop (env : ModuleEnv) : Nat → DmState → Queue → List Out × LoopExit
  | 0, _, _ => ([], .outOfInput)
  | fuel + 1, st, q =>
    match recv q with
    | none => ([], .outOfInput)
    | some (cmd, q') =>
      match handleCmd env st cmd q' with
      | .fatal out chain => (out, .fatal chain)
      | .noInput out => (out, .outOfInput)
      | .done out st' q'' =>
        let r := runLoop env fuel st' q''
        (out ++ r.1, r.2)

/-- `start`: the INIT handshake, voice discovery (its result is the
`voices` oracle), prosody defaults, then the loop. -/
def runStart (env : ModuleEnv) (fuel : Nat) (q : Queue) : List Out × LoopExit :=
  match recv q with
  | none => ([], .outOfInput)
  | some (l, q') =>
    if l ≠ "INIT" then ([], .fatal ["Server did not start with INIT!"])
    else
      match env.voices.head? with
      | none => ([Out.line "299-Everything ok so far"], .fatal ["No models available"])
      | some v =>
        let r := runLoop env fuel ⟨1, 1, 1, v, []⟩ q'
        ([Out.line "299-Everything ok so far",
          Out.line "299 OK LOADED SUCCESSFULLY"] ++ r.1, r.2)

/-- `main`: run `start`; on error, report the whole context chain as
`300-` continuation lines and the `300 MODULE ERROR` terminator, then
exit. -/
def runMain (env : ModuleEnv) (fuel : Nat) (q : Queue) : List Out :=
  let r := runStart env fuel q
  match r.2 with
  | .fatal chain =>
    r.1 ++ chain.map (fun e => Out.line ("300-" ++ e)) ++ [Out.line "300 MODULE ERROR"]
  | .outOfInput => r.1

/-! ## Concrete oracle instances for the scenario theorems -/

/-- Decimal digits to a number (helper for the concrete parser
oracles). -/
def digitsVal : List Char → Option Nat
  | [] => none
  | l =>
    if l.all Char.isDigit then
      some (l.foldl (fun a c => 10 * a + (c.toNat - 48)) 0)
    else none

/-- A concrete instance of the `str::parse::<f32>` oracle: optionally
signed decimal integers (every numeric value the scenarios use);
anything else — e.g. `banana` — fails. -/
def parseDecimal (s : String) : Option Rat :=
  match s.toList with
  | '-' :: rest => (digitsVal rest).map (fun n => -(n : Rat))
  | l => (digitsVal l).map (fun n => (n : Rat))

/-- A concrete instance of the `str::parse::<usize>` oracle. -/
def parseNatDec (s : String) : Option Nat := digitsVal s.toList

/-- An SSML parser oracle that accepts everything as one Text node. -/
def psOk : String → Except (List String) (List SsmlElement) :=
  fun _ => .ok [.text "t1"]

/-- An SSML parser oracle that rejects everything with one parse
error. -/
def psBad : String → Except (List String) (List SsmlElement) :=
  fun _ => .error ["unexpected closing tag"]

/-- The concrete dispatcher environment: one voice "amy", and the same
synthesis oracle as `demoEnv`. -/
def demoModEnv (ps : String → Except (List String) (List SsmlElement)) : ModuleEnv :=
  ⟨["amy"], fun _ => some ⟨"en-us", some "amy"⟩, fun _ => demoInfo,
    fun _ => Except.ok (), fun _ _ _ _ => demoSynth, ps,
    parseDecimal, parseNatDec, fun _ => true⟩

/-- The dispatcher state right after startup with voice "amy". -/
def st0 : DmState := ⟨1, 1, 1, "amy", []⟩

/-- C9: the first line read must be exactly "INIT"; on any other line
`start` returns an error and `main` emits the `300-` continuation line
and the `300 MODULE ERROR` terminator, processing nothing else. -/
theorem C9_init_required (env : ModuleEnv) (fuel : Nat) (q q' : Queue) (l : String)
    (h : recv q = some (l, q')) (hne : l ≠ "INIT") :
    runMain env fuel q
      = [Out.line "300-Server did not start with INIT!",
          Out.line "300 MODULE ERROR"] := by
  simp [runMain, runStart, h, hne]

/-- Witness for C9: first line "SPEAK" instead of "INIT". -/
theorem C9_init_required_witness :
    runMain (demoModEnv psOk) 1 [some "SPEAK"]
      = [Out.line "300-Server did not start with INIT!",
          Out.line "300 MODULE ERROR"] :=
  C9_init_required (demoModEnv psOk) 1 [some "SPEAK"] [] "SPEAK" rfl (by decide)

/-- C8: after a successfully parsed SPEAK, the dispatcher appends
exactly one terminal status line determined by the playback outcome:
`Stop ↦ 703 STOP`, while `End` and both `Pause` outcomes map to
`702 END` — pause is never surfaced as a distinct top-level status. -/
theorem C8_outcome_mapping :
    outcomeLine .Stop = "703 STOP" ∧
    outcomeLine .End = "702 END" ∧
    (∀ b, outcomeLine (.Pause b) = "702 END") ∧
    (∀ (env : ModuleEnv) (st : DmState) (q : Queue) (buf : String) (q' : Queue)
        (elements : List SsmlElement) (c : StopCondition) (sout : List Out)
        (cached : List String) (q'' : Queue),
      readBody q = some (buf, q') →
      env.parseSsml buf = .ok elements →
      speak ⟨st.voice, env.infoOf st.voice, env.modelLoad,
          env.synth st.voice st.pitch st.rate st.volume⟩ elements false st.cached q'
        = .ok c sout cached q'' →
      handleCmd env st "SPEAK" q
        = .done ([Out.line "202 OK RECEIVING MESSAGE", Out.line "200 OK SPEAKING",
            Out.line "701 BEGIN"] ++ sout ++ [Out.line (outcomeLine c)])
            (setCached st cached) q'') := by
  refine ⟨rfl, rfl, fun b => rfl, ?_⟩
  intro env st q buf q' elements c sout cached q'' h1 h2 h3
  simp [handleCmd, handleSpeak, h1, h2, h3]

/-- Witness for C8: an empty-body SPEAK with the constant parser
oracle; the playback ends normally and the terminal line is the one for
`End` (the 702 end status). -/
theorem C8_outcome_mapping_witness :
    handleCmd (demoModEnv psOk) st0 "SPEAK" [some "."]
      = .done ([Out.line "202 OK RECEIVING MESSAGE", Out.line "200 OK SPEAKING",
          Out.line "701 BEGIN"] ++ chunkOut demoInfo [1, 2]
          ++ [Out.line (outcomeLine .End)])
          (setCached st0 ["amy"]) [] :=
  C8_outcome_mapping.2.2.2 (demoModEnv psOk) st0 [some "."] "" [] [.text "t1"]
    .End (chunkOut demoInfo [1, 2]) ["amy"] [] rfl rfl
    (by simp [speak_cons_text, speak_nil, loadSynth, streamChunks_cons,
      streamChunks_nil, emitChunk_eq, tryRecv, prependOut, demoModEnv, psOk,
      st0, demoSynth])

theorem demoModEnv_voices (ps : String → Except (List String) (List SsmlElement)) :
    (demoModEnv ps).voices = ["amy"] := rfl

/-- C10: a mid-playback line other than STOP or PAUSE makes the chunk
loop `bail!` (the line is consumed: the returned queue has moved past
it); the dispatcher maps the playback error to a `703-` detail line and
the `703 STOP` terminator and continues the loop; concretely, `BANANA`
received during streaming produces the 703 report and a following
`NOPE` command is still answered (with the unknown-command error). -/
theorem C10_unexpected_playback_command :
    (∀ (info : VoiceInfo) (chunk : Except String (List Nat))
        (rest : List (Except String (List Nat))) (sp : Bool) (q : Queue)
        (cmd : String) (q' : Queue),
      tryRecv q = (some cmd, q') → cmd ≠ "STOP" → cmd ≠ "PAUSE" →
      streamChunks info (chunk :: rest) sp q
        = .err ["Unexpected command during playback: " ++ rustDebug cmd] [] q') ∧
    (∀ (env : ModuleEnv) (st : DmState) (q : Queue) (buf : String) (q' : Queue)
        (elements : List SsmlElement) (chain : List String) (sout : List Out)
        (cached : List String) (q'' : Queue),
      readBody q = some (buf, q') →
      env.parseSsml buf = .ok elements →
      speak ⟨st.voice, env.infoOf st.voice, env.modelLoad,
          env.synth st.voice st.pitch st.rate st.volume⟩ elements false st.cached q'
        = .err chain sout cached q'' →
      handleCmd env st "SPEAK" q
        = .done ([Out.line "202 OK RECEIVING MESSAGE", Out.line "200 OK SPEAKING",
            Out.line "701 BEGIN"] ++ sout
            ++ [Out.line ("703-" ++ fmtErr chain), Out.line "703 STOP"])
            (setCached st cached) q'') ∧
    runMain (demoModEnv psOk) 3
        [some "INIT", some "SPEAK", some ".", some "BANANA", some "NOPE"]
      = [Out.line "299-Everything ok so far", Out.line "299 OK LOADED SUCCESSFULLY",
          Out.line "202 OK RECEIVING MESSAGE", Out.line "200 OK SPEAKING",
          Out.line "701 BEGIN",
          Out.line ("703-" ++ ("Unexpected command during playback: " ++ rustDebug "BANANA")),
          Out.line "703 STOP", Out.line "300 ERR UNKNOWN COMMAND"] := by
  refine ⟨?_, ?_, ?_⟩
  · intro info chunk rest sp q cmd q' h hs hp
    rw [streamChunks_cons, h]
    simp [hs, hp]
  · intro env st q buf q' elements chain sout cached q'' h1 h2 h3
    simp [handleCmd, handleSpeak, h1, h2, h3]
  · have hdone : handleSpeak (demoModEnv psOk) ⟨1, 1, 1, "amy", []⟩
        [some ".", some "BANANA", some "NOPE"]
        = .done [Out.line "202 OK RECEIVING MESSAGE", Out.line "200 OK SPEAKING",
            Out.line "701 BEGIN",
            Out.line ("703-" ++ ("Unexpected command during playback: " ++ rustDebug "BANANA")),
            Out.line "703 STOP"] ⟨1, 1, 1, "amy", ["amy"]⟩ [some "NOPE"] := by
      simp [handleSpeak, readBody, demoModEnv, psOk, speak_cons_text, speak_nil,
        loadSynth, streamChunks_cons, streamChunks_nil, emitChunk_eq, tryRecv,
        prependOut, demoSynth, fmtErr, setCached]
    have hstrip : stripPreStr "DEBUG ON " "NOPE" = none := rfl
    simp [runMain, runStart, runLoop, recv, handleCmd, demoModEnv_voices,
      hdone, hstrip]

/-- Witness for C10: the chunk-loop bail on the line `FOO`, and the
dispatcher-level `703` report for a playback error, both at concrete
inputs. -/
theorem C10_unexpected_playback_command_witness :
    streamChunks demoInfo [Except.ok [1, 2]] false [some "FOO"]
      = .err ["Unexpected command during playback: " ++ rustDebug "FOO"] [] [] ∧
    handleCmd (demoModEnv psOk) st0 "SPEAK" [some ".", some "BANANA"]
      = .done ([Out.line "202 OK RECEIVING MESSAGE", Out.line "200 OK SPEAKING",
          Out.line "701 BEGIN"] ++ []
          ++ [Out.line ("703-" ++ fmtErr
                ["Unexpected command during playback: " ++ rustDebug "BANANA"]),
              Out.line "703 STOP"])
          (setCached st0 ["amy"]) [] := by
  constructor
  · exact C10_unexpected_playback_command.1 demoInfo (Except.ok [1, 2]) [] false
      [some "FOO"] "FOO" [] rfl (by decide) (by decide)
  · exact C10_unexpected_playback_command.2.1 (demoModEnv psOk) st0
      [some ".", some "BANANA"] "" [some "BANANA"] [.text "t1"]
      ["Unexpected command during playback: " ++ rustDebug "BANANA"] [] ["amy"] []
      rfl rfl
      (by simp [speak_cons_text, loadSynth, streamChunks_cons, tryRecv,
        demoModEnv, psOk, st0, demoSynth])

/-! ## C4 and C5: error paths that abort the whole process

The code routes a markup parse failure and an unparseable numeric SET
value out of `start` via `return`/`?`, so `main` reports them through
the `300` family and exits — not through a command-level or `703`
response with the loop continuing. -/

def qC4 : Queue := [some "INIT", some "SPEAK", some "hello", some ".", some "SET"]

/-- Counterexample to C4: a SPEAK whose body fails SSML parsing is
reported through the `300` family (continuation lines and
`300 MODULE ERROR`), with no `703 STOP` terminator anywhere in the
output, and the following `SET` command is never answered — the
dispatcher loop does not continue. -/
theorem C4_counterexample :
    runMain (demoModEnv psBad) 2 qC4
      = [Out.line "299-Everything ok so far", Out.line "299 OK LOADED SUCCESSFULLY",
          Out.line "202 OK RECEIVING MESSAGE",
          Out.line "300-unexpected closing tag", Out.line "300-SSML parsing failed",
          Out.line "300 MODULE ERROR"] ∧
    Out.line "703 STOP" ∉ runMain (demoModEnv psBad) 2 qC4 ∧
    Out.line "203 OK RECEIVING SETTINGS" ∉ runMain (demoModEnv psBad) 2 qC4 := by
  refine ⟨by decide, by decide, by decide⟩

/-- C4 (amended): a SPEAK body that fails markup parsing aborts the
whole dispatcher, not just the command: the handler returns the folded
error chain (the parse errors in reverse order under the
`SSML parsing failed` context) out of `start`, and `main` reports each
chain element as a `300-` continuation line followed by the
`300 MODULE ERROR` terminator before the process exits; no later
command is processed. -/
theorem C4_parse_failure_fatal :
    (∀ (env : ModuleEnv) (st : DmState) (q : Queue) (buf : String) (q' : Queue)
        (es : List String),
      readBody q = some (buf, q') →
      env.parseSsml buf = .error es →
      handleCmd env st "SPEAK" q
        = .fatal [Out.line "202 OK RECEIVING MESSAGE"]
            (es.reverse ++ ["SSML parsing failed"])) ∧
    (∀ (env : ModuleEnv) (fuel : Nat) (q : Queue) (out : List Out)
        (chain : List String),
      runStart env fuel q = (out, .fatal chain) →
      runMain env fuel q
        = out ++ chain.map (fun e => Out.line ("300-" ++ e))
            ++ [Out.line "300 MODULE ERROR"]) := by
  constructor
  · intro env st q buf q' es h1 h2
    simp [handleCmd, handleSpeak, h1, h2]
  · intro env fuel q out chain h
    simp [runMain, h]

/-- Witness for C4: the concrete parse-failing SPEAK of `qC4`, at both
the handler level and the whole-process level. -/
theorem C4_parse_failure_fatal_witness :
    handleCmd (demoModEnv psBad) st0 "SPEAK" [some "x", some "."]
      = .fatal [Out.line "202 OK RECEIVING MESSAGE"]
          ["unexpected closing tag", "SSML parsing failed"] ∧
    runMain (demoModEnv psBad) 2 qC4
      = [Out.line "299-Everything ok so far", Out.line "299 OK LOADED SUCCESSFULLY",
          Out.line "202 OK RECEIVING MESSAGE"]
        ++ ["unexpected closing tag", "SSML parsing failed"].map
            (fun e => Out.line ("300-" ++ e))
        ++ [Out.line "300 MODULE ERROR"] := by
  constructor
  · exact C4_parse_failure_fatal.1 (demoModEnv psBad) st0 [some "x", some "."]
      "x\n" [] ["unexpected closing tag"] rfl rfl
  · exact C4_parse_failure_fatal.2 (demoModEnv psBad) 2 qC4
      [Out.line "299-Everything ok so far", Out.line "299 OK LOADED SUCCESSFULLY",
        Out.line "202 OK RECEIVING MESSAGE"]
      ["unexpected closing tag", "SSML parsing failed"] rfl

theorem setLoop_pitch_invalid (env : ModuleEnv) (st : DmState) (line value : String)
    (q : Queue) (h1 : splitOnceStr '=' line = some ("pitch", value))
    (h2 : env.parseF32 value = none) :
    setLoop env st (some line :: q)
      = .fatal [] ["Invalid value for pitch", "invalid float literal"] := by
  have hne : line ≠ "." := by
    intro he
    rw [he] at h1
    rw [show splitOnceStr '=' "." = none from rfl] at h1
    exact Option.noConfusion h1
  simp [setLoop, hne, h1, h2]

def qC5 : Queue :=
  [some "INIT", some "SET", some "pitch=100", some ".",
    some "SET", some "pitch=banana", some ".", some "SPEAK"]

/-- Counterexample to C5: a `pitch=banana` line inside SET kills the
whole process through the `300` family — the following SPEAK command is
never answered, so neither does the loop continue nor is any prior
pitch value ever applied again. -/
theorem C5_counterexample :
    runMain (demoModEnv psOk) 3 qC5
      = [Out.line "299-Everything ok so far", Out.line "299 OK LOADED SUCCESSFULLY",
          Out.line "203 OK RECEIVING SETTINGS", Out.line "203 OK SETTINGS RECEIVED",
          Out.line "203 OK RECEIVING SETTINGS",
          Out.line "300-Invalid value for pitch", Out.line "300-invalid float literal",
          Out.line "300 MODULE ERROR"] ∧
    Out.line "202 OK RECEIVING MESSAGE" ∉ runMain (demoModEnv psOk) 3 qC5 := by
  refine ⟨by decide, by decide⟩

/-- C5 (amended): a SET line whose numeric value fails to parse aborts
`start` with the context chain `Invalid value for pitch` /
`invalid float literal` — the dispatcher loop ends, `main` reports the
chain via `300-` lines and `300 MODULE ERROR`, and no subsequent
command (which would have seen the prior pitch) is processed. -/
theorem C5_set_invalid_numeric_fatal :
    (∀ (env : ModuleEnv) (st : DmState) (line value : String) (q : Queue),
      splitOnceStr '=' line = some ("pitch", value) →
      env.parseF32 value = none →
      setLoop env st (some line :: q)
        = .fatal [] ["Invalid value for pitch", "invalid float literal"]) ∧
    (∀ (env : ModuleEnv) (st : DmState) (line value : String) (q : Queue),
      splitOnceStr '=' line = some ("pitch", value) →
      env.parseF32 value = none →
      handleCmd env st "SET" (some line :: q)
        = .fatal [Out.line "203 OK RECEIVING SETTINGS"]
            ["Invalid value for pitch", "invalid float literal"]) ∧
    runMain (demoModEnv psOk) 3 qC5
      = [Out.line "299-Everything ok so far", Out.line "299 OK LOADED SUCCESSFULLY",
          Out.line "203 OK RECEIVING SETTINGS", Out.line "203 OK SETTINGS RECEIVED",
          Out.line "203 OK RECEIVING SETTINGS",
          Out.line "300-Invalid value for pitch", Out.line "300-invalid float literal",
          Out.line "300 MODULE ERROR"] := by
  refine ⟨?_, ?_, by decide⟩
  · intro env st line value q h1 h2
    exact setLoop_pitch_invalid env st line value q h1 h2
  · intro env st line value q h1 h2
    simp [handleCmd, setLoop_pitch_invalid env st line value q h1 h2,
      prependSub, appendDone]

/-- Witness for C5: `pitch=banana` under the concrete parser oracle, at
the sub-dialog and handler levels. -/
theorem C5_set_invalid_numeric_fatal_witness :
    setLoop (demoModEnv psOk) st0 (some "pitch=banana" :: [])
      = .fatal [] ["Invalid value for pitch", "invalid float literal"] ∧
    handleCmd (demoModEnv psOk) st0 "SET" (some "pitch=banana" :: [])
      = .fatal [Out.line "203 OK RECEIVING SETTINGS"]
          ["Invalid value for pitch", "invalid float literal"] := by
  constructor
  · exact C5_set_invalid_numeric_fatal.1 (demoModEnv psOk) st0
      "pitch=banana" "banana" [] rfl rfl
  · exact C5_set_invalid_numeric_fatal.2.1 (demoModEnv psOk) st0
      "pitch=banana" "banana" [] rfl rfl
